import Mathlib

/-!
Shallow embedding of `workshop/collection.py` from the avrae-service repository.

The module is a data-access layer over a MongoDB store.  We embed the store as
an explicit `MDB` value (one list of documents per logical collection) threaded
through every operation; MongoDB `ObjectId`s are embedded as `Nat`, Discord
user/guild ids as `Int`, and `datetime` values as `Nat` (supplied as an
explicit `now` argument where the code calls `datetime.now`/`utcnow`).
Fallible operations return `Except WError`.  Python's in-place mutation of
`self` is embedded as state passing: an operation that mutates the in-memory
object returns the updated object alongside its result.

The subscriber/guild-active mixins (`SubscriberMixin`, `GuildActiveMixin`)
live outside this module; their operations (`is_subscribed`, `my_sub_ids`,
`is_server_active`, `guild_active_ids`, and the generic record-removing
`unsubscribe`/`unset_server_active`) are modelled from the spec's description
of the consumed capability interfaces and of the subscription-record schema.
-/

/-- `PublicationState` enum of the publication visibility of a collection. -/
inductive PublicationState where
  | PRIVATE
  | UNLISTED
  | PUBLISHED
deriving Repr, DecidableEq

/-- `RequiredEntitlement`: an entitlement that a user must have to invoke an
alias/snippet. -/
structure RequiredEntitlement where
  entity_type : String
  entity_id : Int
  required : Bool
deriving Repr, DecidableEq

/-- `CodeVersion`: an immutable historical snapshot of an object's code. -/
structure CodeVersion where
  version : Int
  content : String
  created_at : Nat
  is_current : Bool
deriving Repr, DecidableEq

/-- A `{name, id}` name-binding pair stored inside a subscription document. -/
structure Binding where
  name : String
  id : Nat
deriving Repr, DecidableEq

/-- The exceptions this layer can surface: `NotAllowed msg` (business-rule
rejection), `CollectionNotFound`, `CollectableNotFound`, and the
`AttributeError msg` raised by the lazy-load guards. -/
inductive WError where
  | notAllowed (msg : String)
  | collectionNotFound
  | collectableNotFound
  | attributeError (msg : String)
deriving Repr, DecidableEq

/-- A persisted document of the `workshop_collections` store, with the
store-assigned `_id` and the fields written by `WorkshopCollection.to_dict`. -/
structure CollectionDoc where
  id : Nat
  name : String
  description : String
  image : Option String
  owner : Int
  alias_ids : List Nat
  snippet_ids : List Nat
  publish_state : PublicationState
  num_subscribers : Int
  num_guild_subscribers : Int
  last_edited : Nat
  created_at : Nat
  tags : List String
deriving Repr, DecidableEq

/-- A persisted document of the `workshop_aliases` store. -/
structure AliasDoc where
  id : Nat
  name : String
  code : String
  versions : List CodeVersion
  docs : String
  entitlements : List RequiredEntitlement
  collection_id : Nat
  subcommand_ids : List Nat
  parent_id : Option Nat
deriving Repr, DecidableEq

/-- A persisted document of the `workshop_snippets` store. -/
structure SnippetDoc where
  id : Nat
  name : String
  code : String
  versions : List CodeVersion
  docs : String
  entitlements : List RequiredEntitlement
  collection_id : Nat
deriving Repr, DecidableEq

/-- A persisted document of the `workshop_subscriptions` store, as inserted by
`subscribe`/`set_server_active`: `type` is `"subscribe"` or `"server_active"`,
`subscriber_id` a user or guild id, `object_id` the collection id. -/
structure SubDoc where
  type : String
  subscriber_id : Int
  object_id : Option Nat
  alias_bindings : List Binding
  snippet_bindings : List Binding
deriving Repr, DecidableEq

/-- A persisted document of the `analytics_alias_events` store. -/
structure EventDoc where
  type : String
  object_id : Option Nat
  timestamp : Nat
deriving Repr, DecidableEq

/-- The MongoDB handle `current_app.mdb`: one list of documents per logical
store, in insertion order. -/
structure MDB where
  workshop_collections : List CollectionDoc
  workshop_aliases : List AliasDoc
  workshop_snippets : List SnippetDoc
  workshop_subscriptions : List SubDoc
  analytics_alias_events : List EventDoc
deriving Repr, DecidableEq

/-- `update_one`: apply `f` to the first element satisfying `p` (MongoDB's
`update_one` updates at most one matching document); no match is a no-op. -/
def updateFirst (p : α → Bool) (f : α → α) : List α → List α
  | [] => []
  | x :: xs => if p x then f x :: xs else x :: updateFirst p f xs

/-- `delete_one`: remove the first element satisfying `p`; no match is a
no-op. -/
def deleteFirst (p : α → Bool) : List α → List α
  | [] => []
  | x :: xs => if p x then xs else x :: deleteFirst p xs

/-- Iteration over the Python set `set(the_ids).difference(binding_ids)`,
embedded deterministically: keep the first occurrence of each element, in
first-occurrence order (`seen` accumulates the elements already produced). -/
def dedupSeen (seen : List Nat) : List Nat → List Nat
  | [] => []
  | x :: xs => if seen.contains x then dedupSeen seen xs else x :: dedupSeen (x :: seen) xs

/-- First-occurrence deduplication of a list, modelling iteration over the
Python set built from it. -/
def dedupKeepFirst (l : List Nat) : List Nat := dedupSeen [] l

/-- The `bson.ObjectId(_id)` coercion performed at the top of every `from_id`:
an actual id passes through unchanged, while `ObjectId(None)` generates a
fresh `ObjectId` (embedded as the explicitly supplied `freshId`). -/
def objectIdOfOption : Option Nat → Nat → Nat
  | some i, _ => i
  | none, freshId => freshId

/-- `find_one({"_id": _id})` on the `workshop_collections` store. -/
def MDB.findCollectionDoc (db : MDB) (theId : Nat) : Option CollectionDoc :=
  db.workshop_collections.find? (fun d => d.id == theId)

/-- `find_one({"_id": _id})` on the `workshop_aliases` store. -/
def MDB.findAliasDoc (db : MDB) (theId : Nat) : Option AliasDoc :=
  db.workshop_aliases.find? (fun d => d.id == theId)

/-- `find_one({"_id": _id})` on the `workshop_snippets` store. -/
def MDB.findSnippetDoc (db : MDB) (theId : Nat) : Option SnippetDoc :=
  db.workshop_snippets.find? (fun d => d.id == theId)

/-- The in-memory `WorkshopCollection` object, parameterized by the alias and
snippet object types to close the lazy-reference cycle (a collection caches
loaded aliases/snippets, and a collectable caches its loaded collection).
`aliasesCache`/`snippetsCache` are the lazily loaded `_aliases`/`_snippets`
(`none` until the corresponding load), `alias_ids`/`snippet_ids` the stored
`_alias_ids`/`_snippet_ids`, and `id` is `none` until the object is
persisted. -/
structure WorkshopCollectionF (A S : Type) where
  id : Option Nat
  name : String
  description : String
  image : Option String
  owner : Int
  aliasesCache : Option (List A)
  snippetsCache : Option (List S)
  publish_state : PublicationState
  approx_num_subscribers : Int
  approx_num_guild_subscribers : Int
  last_edited : Nat
  created_at : Nat
  tags : List String
  alias_ids : List Nat
  snippet_ids : List Nat

/-- The scalar fields shared by `WorkshopCollectableObject` subclasses. -/
structure CollectableData where
  id : Nat
  name : String
  code : String
  versions : List CodeVersion
  docs : String
  entitlements : List RequiredEntitlement
  collection_id : Nat
deriving Repr, DecidableEq

mutual

/-- The in-memory `WorkshopAlias` object: collectable data, the stored
`_subcommand_ids`/`_parent_id`, and the lazy caches `_collection`, `_parent`,
`_subcommands` (each `none` until its load call). -/
inductive WorkshopAlias : Type where
  | mk (data : CollectableData) (subcommand_ids : List Nat) (parent_id : Option Nat)
      (collectionCache : Option (WorkshopCollectionF WorkshopAlias WorkshopSnippet))
      (parentCache : Option WorkshopAlias)
      (subcommandsCache : Option (List WorkshopAlias)) : WorkshopAlias

/-- The in-memory `WorkshopSnippet` object: collectable data and the lazy
`_collection` cache. -/
inductive WorkshopSnippet : Type where
  | mk (data : CollectableData)
      (collectionCache : Option (WorkshopCollectionF WorkshopAlias WorkshopSnippet)) : WorkshopSnippet

end

/-- The in-memory `WorkshopCollection` object. -/
abbrev WorkshopCollection : Type := WorkshopCollectionF WorkshopAlias WorkshopSnippet

def WorkshopAlias.data : WorkshopAlias → CollectableData
  | .mk d _ _ _ _ _ => d

def WorkshopAlias.subcommand_ids : WorkshopAlias → List Nat
  | .mk _ s _ _ _ _ => s

def WorkshopAlias.parent_id : WorkshopAlias → Option Nat
  | .mk _ _ p _ _ _ => p

def WorkshopAlias.collectionCache : WorkshopAlias → Option WorkshopCollection
  | .mk _ _ _ c _ _ => c

def WorkshopAlias.parentCache : WorkshopAlias → Option WorkshopAlias
  | .mk _ _ _ _ p _ => p

def WorkshopAlias.subcommandsCache : WorkshopAlias → Option (List WorkshopAlias)
  | .mk _ _ _ _ _ s => s

def WorkshopSnippet.data : WorkshopSnippet → CollectableData
  | .mk d _ => d

def WorkshopSnippet.collectionCache : WorkshopSnippet → Option WorkshopCollection
  | .mk _ c => c

/-- Rebuild an alias with a new `_collection` cache. -/
def WorkshopAlias.withCollectionCache : WorkshopAlias → Option WorkshopCollection → WorkshopAlias
  | .mk d s pid _ p sc, cc => .mk d s pid cc p sc

/-- Rebuild an alias with a new `_parent` cache. -/
def WorkshopAlias.withParentCache : WorkshopAlias → Option WorkshopAlias → WorkshopAlias
  | .mk d s pid cc _ sc, p => .mk d s pid cc p sc

/-- Rebuild an alias with a new `_subcommands` cache. -/
def WorkshopAlias.withSubcommandsCache : WorkshopAlias → Option (List WorkshopAlias) → WorkshopAlias
  | .mk d s pid cc p _, sc => .mk d s pid cc p sc

/-- Rebuild a snippet with a new `_collection` cache. -/
def WorkshopSnippet.withCollectionCache : WorkshopSnippet → Option WorkshopCollection → WorkshopSnippet
  | .mk d _, cc => .mk d cc

/-- `WorkshopCollection.__init__`: the lazy caches `_aliases`/`_snippets` start
out `None`; all other attributes are stored as given. -/
def WorkshopCollection.init (_id : Option Nat) (name : String) (description : String)
    (image : Option String) (owner : Int) (alias_ids : List Nat) (snippet_ids : List Nat)
    (publish_state : PublicationState) (num_subscribers : Int) (num_guild_subscribers : Int)
    (last_edited : Nat) (created_at : Nat) (tags : List String) : WorkshopCollection :=
  { id := _id, name := name, description := description, image := image, owner := owner,
    aliasesCache := none, snippetsCache := none, publish_state := publish_state,
    approx_num_subscribers := num_subscribers, approx_num_guild_subscribers := num_guild_subscribers,
    last_edited := last_edited, created_at := created_at, tags := tags,
    alias_ids := alias_ids, snippet_ids := snippet_ids }

/-- `WorkshopCollection.from_id`: fetch by id; `CollectionNotFound` when no
document matches. -/
def WorkshopCollection.from_id (db : MDB) (theId : Nat) : Except WError WorkshopCollection :=
  match db.findCollectionDoc theId with
  | none => throw .collectionNotFound
  | some raw =>
    pure (WorkshopCollection.init (some raw.id) raw.name raw.description raw.image raw.owner
      raw.alias_ids raw.snippet_ids raw.publish_state raw.num_subscribers
      raw.num_guild_subscribers raw.last_edited raw.created_at raw.tags)

/-- The `aliases` property: lazy-load guard raising `AttributeError` before
`load_aliases()` has run. -/
def WorkshopCollection.aliases (c : WorkshopCollection) : Except WError (List WorkshopAlias) :=
  match c.aliasesCache with
  | none => throw (.attributeError "Aliases are not loaded yet - run load_aliases() first")
  | some l => pure l

/-- The `snippets` property: lazy-load guard raising `AttributeError` before
`load_snippets()` has run. -/
def WorkshopCollection.snippets (c : WorkshopCollection) : Except WError (List WorkshopSnippet) :=
  match c.snippetsCache with
  | none => throw (.attributeError "Snippets are not loaded yet - run load_snippets() first")
  | some l => pure l

/-- `WorkshopAlias.from_dict`: deserialize a stored alias document; `versions`
and `entitlements` are fully materialized (the documents already hold them in
structured form here), the lazy caches take the given `collection`/`parent`
and `_subcommands` starts `None`. -/
def WorkshopAlias.from_dict (raw : AliasDoc) (collection : Option WorkshopCollection)
    (parent : Option WorkshopAlias) : WorkshopAlias :=
  .mk { id := raw.id, name := raw.name, code := raw.code, versions := raw.versions,
        docs := raw.docs, entitlements := raw.entitlements, collection_id := raw.collection_id }
    raw.subcommand_ids raw.parent_id collection parent none

/-- `WorkshopAlias.from_id`: coerce the id through `ObjectId(...)` (a missing
id yields the fresh `freshId`), fetch, and raise `CollectableNotFound` when no
document matches. -/
def WorkshopAlias.from_id (db : MDB) (oid : Option Nat) (freshId : Nat)
    (collection : Option WorkshopCollection) (parent : Option WorkshopAlias) :
    Except WError WorkshopAlias :=
  match db.findAliasDoc (objectIdOfOption oid freshId) with
  | none => throw .collectableNotFound
  | some raw => pure (WorkshopAlias.from_dict raw collection parent)

/-- The `cls(...)` construction at the end of `WorkshopSnippet.from_id`:
deserialize a stored snippet document (`versions` and `entitlements` fully
materialized) with the given `collection` reference. -/
def SnippetDoc.toObject (raw : SnippetDoc) (collection : Option WorkshopCollection) :
    WorkshopSnippet :=
  .mk { id := raw.id, name := raw.name, code := raw.code, versions := raw.versions,
        docs := raw.docs, entitlements := raw.entitlements, collection_id := raw.collection_id }
    collection

/-- `WorkshopSnippet.from_id`: coerce the id through `ObjectId(...)`, fetch,
and raise `CollectableNotFound` when no document matches. -/
def WorkshopSnippet.from_id (db : MDB) (oid : Option Nat) (freshId : Nat)
    (collection : Option WorkshopCollection) : Except WError WorkshopSnippet :=
  match db.findSnippetDoc (objectIdOfOption oid freshId) with
  | none => throw .collectableNotFound
  | some raw => pure (raw.toObject collection)

/-- `load_aliases()`: resolve every stored alias id (with this collection as
the `collection` reference and no parent) and replace the `_aliases` cache
with the freshly loaded list. -/
def WorkshopCollection.load_aliases (db : MDB) (c : WorkshopCollection) :
    Except WError (WorkshopCollection × List WorkshopAlias) := do
  let l ← c.alias_ids.mapM (fun alias_id => WorkshopAlias.from_id db (some alias_id) 0 (some c) none)
  pure ({ c with aliasesCache := some l }, l)

/-- `load_snippets()`: resolve every stored snippet id and replace the
`_snippets` cache with the freshly loaded list. -/
def WorkshopCollection.load_snippets (db : MDB) (c : WorkshopCollection) :
    Except WError (WorkshopCollection × List WorkshopSnippet) := do
  let l ← c.snippet_ids.mapM (fun snippet_id => WorkshopSnippet.from_id db (some snippet_id) 0 (some c))
  pure ({ c with snippetsCache := some l }, l)

/-- `is_owner(user_id)`: equality check against the stored owner. -/
def WorkshopCollection.is_owner (c : WorkshopCollection) (user_id : Int) : Bool :=
  user_id == c.owner

/-- `to_dict()` followed by the store's `_id` assignment on insertion: the
persisted document carries the collection's fields and the store-assigned
id. -/
def WorkshopCollection.to_dict (c : WorkshopCollection) (assignedId : Nat) : CollectionDoc :=
  { id := assignedId, name := c.name, description := c.description, image := c.image,
    owner := c.owner, alias_ids := c.alias_ids, snippet_ids := c.snippet_ids,
    publish_state := c.publish_state, num_subscribers := c.approx_num_subscribers,
    num_guild_subscribers := c.approx_num_guild_subscribers, last_edited := c.last_edited,
    created_at := c.created_at, tags := c.tags }

/-- `create_new(user_id, name, description, image)`: build a PRIVATE collection
with zero counters, empty membership and `now` timestamps, insert its document
(the store assigns `newId`), and return the instance with its assigned id. -/
def WorkshopCollection.create_new (db : MDB) (newId : Nat) (now : Nat) (user_id : Int)
    (name : String) (description : String) (image : Option String) :
    MDB × WorkshopCollection :=
  let inst := WorkshopCollection.init none name description image user_id [] []
    .PRIVATE 0 0 now now []
  let db' := { db with workshop_collections := db.workshop_collections ++ [inst.to_dict newId] }
  (db', { inst with id := some newId })

/-- The `collection` property (from `WorkshopCollectableObject`): lazy-load
guard raising `AttributeError` before `load_collection()` has run. -/
def WorkshopAlias.collection (a : WorkshopAlias) : Except WError WorkshopCollection :=
  match a.collectionCache with
  | none => throw (.attributeError "Collection is not loaded - run load_collection() first")
  | some c => pure c

/-- The `collection` property (from `WorkshopCollectableObject`): lazy-load
guard raising `AttributeError` before `load_collection()` has run. -/
def WorkshopSnippet.collection (s : WorkshopSnippet) : Except WError WorkshopCollection :=
  match s.collectionCache with
  | none => throw (.attributeError "Collection is not loaded - run load_collection() first")
  | some c => pure c

/-- The `parent` property: lazy-load guard raising `AttributeError` before
`load_parent()` has run. -/
def WorkshopAlias.parent (a : WorkshopAlias) : Except WError WorkshopAlias :=
  match a.parentCache with
  | none => throw (.attributeError "Parent is not loaded yet - run load_parent() first")
  | some p => pure p

/-- The `subcommands` property: lazy-load guard raising `AttributeError`
before `load_subcommands()` has run. -/
def WorkshopAlias.subcommands (a : WorkshopAlias) : Except WError (List WorkshopAlias) :=
  match a.subcommandsCache with
  | none => throw (.attributeError "Subcommands are not loaded yet - run load_subcommands() first")
  | some l => pure l

/-- `load_collection()`: resolve the owning collection and cache it. -/
def WorkshopAlias.load_collection (db : MDB) (a : WorkshopAlias) :
    Except WError (WorkshopAlias × WorkshopCollection) := do
  let c ← WorkshopCollection.from_id db a.data.collection_id
  pure (a.withCollectionCache (some c), c)

/-- `load_collection()`: resolve the owning collection and cache it. -/
def WorkshopSnippet.load_collection (db : MDB) (s : WorkshopSnippet) :
    Except WError (WorkshopSnippet × WorkshopCollection) := do
  let c ← WorkshopCollection.from_id db s.data.collection_id
  pure (s.withCollectionCache (some c), c)

/-- `load_parent()`: resolve `_parent_id` through `WorkshopAlias.from_id`
(whose `ObjectId` coercion turns a `None` parent id into the fresh `freshId`)
with this alias's `_collection` as the collection reference, and cache the
result. -/
def WorkshopAlias.load_parent (db : MDB) (freshId : Nat) (a : WorkshopAlias) :
    Except WError (WorkshopAlias × WorkshopAlias) := do
  let p ← WorkshopAlias.from_id db a.parent_id freshId a.collectionCache none
  pure (a.withParentCache (some p), p)

/-- `load_subcommands()`: resolve every stored subcommand id, each with this
alias as its parent reference, and replace the `_subcommands` cache. -/
def WorkshopAlias.load_subcommands (db : MDB) (a : WorkshopAlias) :
    Except WError (WorkshopAlias × List WorkshopAlias) := do
  let l ← a.subcommand_ids.mapM
    (fun subcommand_id => WorkshopAlias.from_id db (some subcommand_id) 0 a.collectionCache (some a))
  pure (a.withSubcommandsCache (some l), l)

/-- `get_entitlements()`'s `collections.defaultdict(list)` with Python's
insertion-ordered dict semantics: append `v` to the list at key `k`, creating
the key at the end when absent. -/
def defaultdictAppend (out : List (String × List Int)) (k : String) (v : Int) :
    List (String × List Int) :=
  match out with
  | [] => [(k, [v])]
  | (k', vs) :: rest => if k' = k then (k', vs ++ [v]) :: rest else (k', vs) :: defaultdictAppend rest k v

/-- `get_entitlements()` (from `WorkshopCollectableObject`): group the
entitlement list into `{entity_type: [entity_id]}`. -/
def CollectableData.get_entitlements (d : CollectableData) : List (String × List Int) :=
  d.entitlements.foldl (fun out ent => defaultdictAppend out ent.entity_type ent.entity_id) []

/-- Modelled from the spec: the Subscriber capability's `is_subscribed(id)`
(from the excluded `SubscriberMixin`) — whether a `"subscribe"`-type
subscription record for this user and collection exists. -/
def WorkshopCollection.is_subscribed (db : MDB) (c : WorkshopCollection) (user_id : Int) : Bool :=
  db.workshop_subscriptions.any
    (fun r => r.type == "subscribe" && r.subscriber_id == user_id && r.object_id == c.id)

/-- Modelled from the spec: the Guild-active capability's
`is_server_active(id)` (from the excluded `GuildActiveMixin`) — whether a
`"server_active"`-type subscription record for this guild and collection
exists. -/
def WorkshopCollection.is_server_active (db : MDB) (c : WorkshopCollection) (guild_id : Int) : Bool :=
  db.workshop_subscriptions.any
    (fun r => r.type == "server_active" && r.subscriber_id == guild_id && r.object_id == c.id)

/-- Modelled from the spec: `my_sub_ids(user_id)` of the Subscriber
capability — the collection ids of the user's active `"subscribe"` records,
in record order. -/
def SubscriberMixin.my_sub_ids (db : MDB) (user_id : Int) : List Nat :=
  db.workshop_subscriptions.filterMap
    (fun r => if r.type == "subscribe" && r.subscriber_id == user_id then r.object_id else none)

/-- Modelled from the spec: `guild_active_ids(guild_id)` of the Guild-active
capability — the collection ids of the guild's active `"server_active"`
records, in record order. -/
def GuildActiveMixin.guild_active_ids (db : MDB) (guild_id : Int) : List Nat :=
  db.workshop_subscriptions.filterMap
    (fun r => if r.type == "server_active" && r.subscriber_id == guild_id then r.object_id else none)

/-- Modelled from the spec: the Subscriber capability's generic
`unsubscribe(id)` removing the join record (the user's `"subscribe"` record
for this collection). -/
def SubscriberMixin.unsubscribe (db : MDB) (c : WorkshopCollection) (user_id : Int) : MDB :=
  let subs := deleteFirst
    (fun r => r.type == "subscribe" && r.subscriber_id == user_id && r.object_id == c.id)
    db.workshop_subscriptions
  { db with workshop_subscriptions := subs }

/-- Modelled from the spec: the Guild-active capability's generic
`unset_server_active(id)` removing the join record (the guild's
`"server_active"` record for this collection). -/
def GuildActiveMixin.unset_server_active (db : MDB) (c : WorkshopCollection) (guild_id : Int) : MDB :=
  let subs := deleteFirst
    (fun r => r.type == "server_active" && r.subscriber_id == guild_id && r.object_id == c.id)
    db.workshop_subscriptions
  { db with workshop_subscriptions := subs }

/-- `update_one({"_id": self.id}, {"$inc": {"num_subscribers": delta}})` on
the `workshop_collections` store. -/
def MDB.incNumSubscribers (db : MDB) (oid : Option Nat) (delta : Int) : MDB :=
  let colls := updateFirst (fun d => some d.id == oid)
    (fun d => { d with num_subscribers := d.num_subscribers + delta })
    db.workshop_collections
  { db with workshop_collections := colls }

/-- `update_one({"_id": self.id}, {"$inc": {"num_guild_subscribers": delta}})`
on the `workshop_collections` store. -/
def MDB.incNumGuildSubscribers (db : MDB) (oid : Option Nat) (delta : Int) : MDB :=
  let colls := updateFirst (fun d => some d.id == oid)
    (fun d => { d with num_guild_subscribers := d.num_guild_subscribers + delta })
    db.workshop_collections
  { db with workshop_collections := colls }

/-- `_generate_default_alias_bindings()`: ensure the aliases are loaded (the
load happens only when the `_aliases` cache is still `None`), then build one
`{name, id}` pair per alias from its stored name and id. -/
def WorkshopCollection.generate_default_alias_bindings (db : MDB) (c : WorkshopCollection) :
    Except WError (WorkshopCollection × List Binding) := do
  match c.aliasesCache with
  | none => do
    let (c', l) ← WorkshopCollection.load_aliases db c
    pure (c', l.map (fun a => ({ name := a.data.name, id := a.data.id } : Binding)))
  | some l => pure (c, l.map (fun a => ({ name := a.data.name, id := a.data.id } : Binding)))

/-- `_generate_default_snippet_bindings()`: ensure the snippets are loaded,
then build one `{name, id}` pair per snippet from its stored name and id. -/
def WorkshopCollection.generate_default_snippet_bindings (db : MDB) (c : WorkshopCollection) :
    Except WError (WorkshopCollection × List Binding) := do
  match c.snippetsCache with
  | none => do
    let (c', l) ← WorkshopCollection.load_snippets db c
    pure (c', l.map (fun s => ({ name := s.data.name, id := s.data.id } : Binding)))
  | some l => pure (c, l.map (fun s => ({ name := s.data.name, id := s.data.id } : Binding)))

/-- `_bindings_sanity_check(the_ids, the_bindings, binding_cls)`: for each id
of `the_ids` with no binding (iterating the Python set difference, embedded
as first-occurrence order), fetch the object (`binding_cls.from_id`, supplied
here as the `from_id` argument together with the object's `name`/`id`
projections) and append a default binding; then drop every binding whose id
is no longer in `the_ids`. -/
def WorkshopCollection.bindings_sanity_check {α : Type}
    (from_id : Nat → Except WError α) (objName : α → String) (objId : α → Nat)
    (the_ids : List Nat) (the_bindings : List Binding) : Except WError (List Binding) := do
  let binding_ids := the_bindings.map (fun b => b.id)
  let missing_ids := dedupKeepFirst (the_ids.filter (fun i => !(binding_ids.contains i)))
  let newBindings ← missing_ids.mapM (fun missing => do
    let obj ← from_id missing
    pure ({ name := objName obj, id := objId obj } : Binding))
  pure ((the_bindings ++ newBindings).filter (fun b => the_ids.contains b.id))

/-- `update_alias_bindings(subscription_doc)`: reconcile the document's alias
bindings against `_alias_ids` (fetching missing aliases with this collection
as reference) and persist them; the `update_one` with `$set` is embedded as
the updated subscription document. -/
def WorkshopCollection.update_alias_bindings (db : MDB) (c : WorkshopCollection)
    (subscription_doc : SubDoc) : Except WError SubDoc := do
  let the_bindings ← WorkshopCollection.bindings_sanity_check
    (fun missing => WorkshopAlias.from_id db (some missing) 0 (some c) none)
    (fun a => a.data.name) (fun a => a.data.id)
    c.alias_ids subscription_doc.alias_bindings
  pure { subscription_doc with alias_bindings := the_bindings }

/-- `update_snippet_bindings(subscription_doc)`: reconcile the document's
snippet bindings against `_snippet_ids` and persist them. -/
def WorkshopCollection.update_snippet_bindings (db : MDB) (c : WorkshopCollection)
    (subscription_doc : SubDoc) : Except WError SubDoc := do
  let the_bindings ← WorkshopCollection.bindings_sanity_check
    (fun missing => WorkshopSnippet.from_id db (some missing) 0 (some c))
    (fun s => s.data.name) (fun s => s.data.id)
    c.snippet_ids subscription_doc.snippet_bindings
  pure { subscription_doc with snippet_bindings := the_bindings }

/-- `subscribe(user_id)`: reject when already subscribed, reject a PRIVATE
collection for anyone but the owner; otherwise generate default bindings,
insert the `"subscribe"` subscription record, increment `num_subscribers` and
log a `"subscribe"` analytics event. -/
def WorkshopCollection.subscribe (db : MDB) (c : WorkshopCollection) (user_id : Int)
    (now : Nat) : Except WError (MDB × WorkshopCollection) := do
  if WorkshopCollection.is_subscribed db c user_id then
    throw (.notAllowed "You are already subscribed to this.")
  else if c.publish_state = .PRIVATE ∧ c.is_owner user_id = false then
    throw (.notAllowed "This collection is private.")
  else
    let (c₁, alias_bindings) ← WorkshopCollection.generate_default_alias_bindings db c
    let (c₂, snippet_bindings) ← WorkshopCollection.generate_default_snippet_bindings db c₁
    let db₁ := { db with workshop_subscriptions := db.workshop_subscriptions ++
                   [({ type := "subscribe", subscriber_id := user_id, object_id := c₂.id,
                       alias_bindings := alias_bindings,
                       snippet_bindings := snippet_bindings } : SubDoc)] }
    let db₂ := db₁.incNumSubscribers c₂.id 1
    let db₃ := { db₂ with analytics_alias_events := db₂.analytics_alias_events ++
                   [({ type := "subscribe", object_id := c₂.id, timestamp := now } : EventDoc)] }
    pure (db₃, c₂)

/-- `unsubscribe(user_id)`: remove the subscription record (delegated to the
Subscriber capability), decrement `num_subscribers`, and log an
`"unsubscribe"` analytics event — no precondition check in this layer. -/
def WorkshopCollection.unsubscribe (db : MDB) (c : WorkshopCollection) (user_id : Int)
    (now : Nat) : MDB :=
  let db₁ := SubscriberMixin.unsubscribe db c user_id
  let db₂ := db₁.incNumSubscribers c.id (-1)
  { db₂ with analytics_alias_events := db₂.analytics_alias_events ++
               [({ type := "unsubscribe", object_id := c.id, timestamp := now } : EventDoc)] }

/-- `set_server_active(guild_id)`: reject when already active on the guild,
reject any PRIVATE collection; otherwise generate default bindings, insert
the `"server_active"` subscription record, increment `num_guild_subscribers`
and log a `"server_subscribe"` analytics event. -/
def WorkshopCollection.set_server_active (db : MDB) (c : WorkshopCollection) (guild_id : Int)
    (now : Nat) : Except WError (MDB × WorkshopCollection) := do
  if WorkshopCollection.is_server_active db c guild_id then
    throw (.notAllowed "This collection is already installed on this server.")
  else if c.publish_state = .PRIVATE then
    throw (.notAllowed "This collection is private.")
  else
    let (c₁, alias_bindings) ← WorkshopCollection.generate_default_alias_bindings db c
    let (c₂, snippet_bindings) ← WorkshopCollection.generate_default_snippet_bindings db c₁
    let db₁ := { db with workshop_subscriptions := db.workshop_subscriptions ++
                   [({ type := "server_active", subscriber_id := guild_id, object_id := c₂.id,
                       alias_bindings := alias_bindings,
                       snippet_bindings := snippet_bindings } : SubDoc)] }
    let db₂ := db₁.incNumGuildSubscribers c₂.id 1
    let db₃ := { db₂ with analytics_alias_events := db₂.analytics_alias_events ++
                   [({ type := "server_subscribe", object_id := c₂.id, timestamp := now } : EventDoc)] }
    pure (db₃, c₂)

/-- `unset_server_active(guild_id)`: remove the activation record (delegated
to the Guild-active capability), decrement `num_guild_subscribers`, and log a
`"server_unsubscribe"` analytics event — no precondition check in this
layer. -/
def WorkshopCollection.unset_server_active (db : MDB) (c : WorkshopCollection) (guild_id : Int)
    (now : Nat) : MDB :=
  let db₁ := GuildActiveMixin.unset_server_active db c guild_id
  let db₂ := db₁.incNumGuildSubscribers c.id (-1)
  { db₂ with analytics_alias_events := db₂.analytics_alias_events ++
               [({ type := "server_unsubscribe", object_id := c.id, timestamp := now } : EventDoc)] }

/-- `user_subscribed(user_id)`: resolve each subscribed collection id,
silently skipping any whose collection no longer exists (the
`except CollectionNotFound: continue`). -/
def WorkshopCollection.user_subscribed (db : MDB) (user_id : Int) : List WorkshopCollection :=
  (SubscriberMixin.my_sub_ids db user_id).foldr
    (fun coll_id acc =>
      match WorkshopCollection.from_id db coll_id with
      | .ok c => c :: acc
      | .error _ => acc) []

/-- `server_subscribed(guild_id)`: resolve each active collection id,
silently skipping any whose collection no longer exists. -/
def WorkshopCollection.server_subscribed (db : MDB) (guild_id : Int) : List WorkshopCollection :=
  (GuildActiveMixin.guild_active_ids db guild_id).foldr
    (fun coll_id acc =>
      match WorkshopCollection.from_id db coll_id with
      | .ok c => c :: acc
      | .error _ => acc) []

/-- The stored alias document for an id (an inert placeholder when absent;
only consulted under resolvability hypotheses). -/
def MDB.aliasDocOf (db : MDB) (i : Nat) : AliasDoc :=
  (db.findAliasDoc i).getD { id := 0, name := "", code := "", versions := [], docs := "",
                             entitlements := [], collection_id := 0, subcommand_ids := [],
                             parent_id := none }

/-- The stored snippet document for an id (an inert placeholder when absent;
only consulted under resolvability hypotheses). -/
def MDB.snippetDocOf (db : MDB) (i : Nat) : SnippetDoc :=
  (db.findSnippetDoc i).getD { id := 0, name := "", code := "", versions := [], docs := "",
                               entitlements := [], collection_id := 0 }

/-- The stored name of the alias with the given id. -/
def MDB.aliasNameOf (db : MDB) (i : Nat) : String := (db.aliasDocOf i).name

/-- The stored name of the snippet with the given id. -/
def MDB.snippetNameOf (db : MDB) (i : Nat) : String := (db.snippetDocOf i).name

/-- One default `{name, id}` binding per alias id, using each alias's stored
name. -/
def MDB.defaultAliasBindingsOf (db : MDB) (ids : List Nat) : List Binding :=
  ids.map (fun i => { name := db.aliasNameOf i, id := i })

/-- One default `{name, id}` binding per snippet id, using each snippet's
stored name. -/
def MDB.defaultSnippetBindingsOf (db : MDB) (ids : List Nat) : List Binding :=
  ids.map (fun i => { name := db.snippetNameOf i, id := i })

/-- The persisted `num_subscribers` counter of the collection document with
the given id (`none` when no document matches). -/
def MDB.collNumSubscribers (db : MDB) (oid : Option Nat) : Option Int :=
  (db.workshop_collections.find? (fun d => some d.id == oid)).map (fun d => d.num_subscribers)

/-- The persisted `num_guild_subscribers` counter of the collection document
with the given id (`none` when no document matches). -/
def MDB.collNumGuildSubscribers (db : MDB) (oid : Option Nat) : Option Int :=
  (db.workshop_collections.find? (fun d => some d.id == oid)).map (fun d => d.num_guild_subscribers)

/-! Concrete store contents used to exercise the operations. -/

/-- A concrete alias document: id 1, named `"a1"`, member of collection 10. -/
def aDocW : AliasDoc :=
  { id := 1, name := "a1", code := "c", versions := [], docs := "", entitlements := [],
    collection_id := 10, subcommand_ids := [], parent_id := none }

/-- A concrete snippet document: id 2, named `"s1"`, member of collection 10. -/
def sDocW : SnippetDoc :=
  { id := 2, name := "s1", code := "c", versions := [], docs := "", entitlements := [],
    collection_id := 10 }

/-- A concrete collection document: id 10, owner 5, PUBLISHED, one alias and
one snippet, both counters 0. -/
def cDocW : CollectionDoc :=
  { id := 10, name := "col", description := "d", image := none, owner := 5,
    alias_ids := [1], snippet_ids := [2], publish_state := .PUBLISHED,
    num_subscribers := 0, num_guild_subscribers := 0, last_edited := 0, created_at := 0,
    tags := [] }

/-- A concrete store holding the collection document and its alias/snippet. -/
def dbW : MDB :=
  { workshop_collections := [cDocW], workshop_aliases := [aDocW],
    workshop_snippets := [sDocW], workshop_subscriptions := [], analytics_alias_events := [] }

/-- The in-memory object of `cDocW`, freshly fetched (caches unloaded). -/
def cW : WorkshopCollection :=
  WorkshopCollection.init (some 10) "col" "d" none 5 [1] [2] .PUBLISHED 0 0 0 0 []

/-- A freshly fetched PRIVATE collection owned by user 5, with no members. -/
def cPrivW : WorkshopCollection :=
  WorkshopCollection.init (some 10) "col" "d" none 5 [] [] .PRIVATE 0 0 0 0 []

/-- The alias object `load_aliases` produces for `cW` from `dbW`. -/
def aliasW : WorkshopAlias := WorkshopAlias.from_dict aDocW (some cW) none

/-- The snippet object `load_snippets` produces for `cW` from `dbW`. -/
def snippetW : WorkshopSnippet := sDocW.toObject (some cW)

/-- The alias objects `load_aliases` produces for a collection (one per
stored alias id, with the collection itself as reference). -/
def MDB.loadedAliasesOf (db : MDB) (c : WorkshopCollection) : List WorkshopAlias :=
  c.alias_ids.map (fun i => WorkshopAlias.from_dict (db.aliasDocOf i) (some c) none)

/-- The snippet objects `load_snippets` produces for a collection. -/
def MDB.loadedSnippetsOf (db : MDB) (c : WorkshopCollection) : List WorkshopSnippet :=
  c.snippet_ids.map (fun i => (db.snippetDocOf i).toObject (some c))

/-- A collection after `load_aliases` has replaced its `_aliases` cache. -/
def MDB.withLoadedAliases (db : MDB) (c : WorkshopCollection) : WorkshopCollection :=
  { c with aliasesCache := some (db.loadedAliasesOf c) }

/-- A collection after `load_snippets` has replaced its `_snippets` cache. -/
def MDB.withLoadedSnippets (db : MDB) (c : WorkshopCollection) : WorkshopCollection :=
  { c with snippetsCache := some (db.loadedSnippetsOf c) }

/-- A root alias object (stored parent id absent), freshly constructed. -/
def rootAliasW : WorkshopAlias := WorkshopAlias.from_dict aDocW none none

/-- A concrete subscription document for user 7 on collection 10, holding one
custom binding to a deleted alias (id 3) and no snippet bindings. -/
def subDocW : SubDoc :=
  { type := "subscribe", subscriber_id := 7, object_id := some 10,
    alias_bindings := [{ name := "custom", id := 3 }], snippet_bindings := [] }

/-- `cW` after both loads have filled its caches from `dbW`. -/
def cLoadedW : WorkshopCollection := dbW.withLoadedSnippets (dbW.withLoadedAliases cW)

/-- The store state after user 7 subscribes to collection 10 in `dbW` at
time 99. -/
def dbSubW : MDB :=
  { workshop_collections := [{ cDocW with num_subscribers := 1 }],
    workshop_aliases := [aDocW], workshop_snippets := [sDocW],
    workshop_subscriptions := [{ type := "subscribe", subscriber_id := 7, object_id := some 10,
                                 alias_bindings := [{ name := "a1", id := 1 }],
                                 snippet_bindings := [{ name := "s1", id := 2 }] }],
    analytics_alias_events := [{ type := "subscribe", object_id := some 10, timestamp := 99 }] }

/-- The store state after guild 9 activates collection 10 in `dbW` at
time 42. -/
def dbSrvW : MDB :=
  { workshop_collections := [{ cDocW with num_guild_subscribers := 1 }],
    workshop_aliases := [aDocW], workshop_snippets := [sDocW],
    workshop_subscriptions := [{ type := "server_active", subscriber_id := 9, object_id := some 10,
                                 alias_bindings := [{ name := "a1", id := 1 }],
                                 snippet_bindings := [{ name := "s1", id := 2 }] }],
    analytics_alias_events := [{ type := "server_subscribe", object_id := some 10, timestamp := 42 }] }

/-! Helper lemmas about the store-level list operations. -/

theorem find?_updateFirst {α : Type} (p : α → Bool) (f : α → α) (l : List α)
    (hf : ∀ x, p (f x) = p x) :
    (updateFirst p f l).find? p = (l.find? p).map f := by
  induction l with
  | nil => simp [updateFirst]
  | cons x xs ih =>
    by_cases hx : p x
    · rw [updateFirst, if_pos hx, List.find?_cons_of_pos _ ((hf x).trans hx),
        List.find?_cons_of_pos _ hx, Option.map_some']
    · rw [updateFirst, if_neg hx, List.find?_cons_of_neg _ hx, List.find?_cons_of_neg _ hx, ih]

theorem mem_dedupSeen {i : Nat} : ∀ {l seen : List Nat}, i ∈ dedupSeen seen l → i ∈ l := by
  intro l
  induction l with
  | nil => intro seen h; simp [dedupSeen] at h
  | cons x xs ih =>
    intro seen h
    rw [dedupSeen] at h
    by_cases hx : seen.contains x
    · rw [if_pos hx] at h
      exact List.mem_cons_of_mem x (ih h)
    · rw [if_neg hx] at h
      rcases List.mem_cons.mp h with h | h
      · exact h ▸ List.mem_cons_self x xs
      · exact List.mem_cons_of_mem x (ih h)

theorem mem_dedupKeepFirst {i : Nat} {l : List Nat} (h : i ∈ dedupKeepFirst l) : i ∈ l :=
  mem_dedupSeen h

theorem mapM_ok_of_forall {β : Type} (f : Nat → Except WError β) (g : Nat → β) :
    ∀ (ms : List Nat), (∀ i ∈ ms, f i = .ok (g i)) → ms.mapM f = .ok (ms.map g) := by
  intro ms
  induction ms with
  | nil => intro _; rfl
  | cons a as ih =>
    intro h
    rw [List.mapM_cons, h a (List.mem_cons_self a as), ih (fun i hi => h i (List.mem_cons_of_mem a hi))]
    rfl

/-! Helper lemmas about document resolution. -/

theorem aliasDocOf_id (db : MDB) (i : Nat) (h : (db.findAliasDoc i).isSome) :
    (db.aliasDocOf i).id = i := by
  rw [MDB.aliasDocOf]
  cases hfind : db.findAliasDoc i with
  | none => rw [hfind] at h; simp at h
  | some d =>
    have hp := List.find?_some hfind
    simp only [beq_iff_eq] at hp
    simpa [hfind] using hp

theorem snippetDocOf_id (db : MDB) (i : Nat) (h : (db.findSnippetDoc i).isSome) :
    (db.snippetDocOf i).id = i := by
  rw [MDB.snippetDocOf]
  cases hfind : db.findSnippetDoc i with
  | none => rw [hfind] at h; simp at h
  | some d =>
    have hp := List.find?_some hfind
    simp only [beq_iff_eq] at hp
    simpa [hfind] using hp

theorem alias_from_id_ok (db : MDB) (i : Nat) (co : Option WorkshopCollection)
    (pa : Option WorkshopAlias) (h : (db.findAliasDoc i).isSome) :
    WorkshopAlias.from_id db (some i) 0 co pa = .ok (WorkshopAlias.from_dict (db.aliasDocOf i) co pa) := by
  rw [WorkshopAlias.from_id, MDB.aliasDocOf]
  cases hfind : db.findAliasDoc i with
  | none => rw [hfind] at h; simp at h
  | some d => simp [objectIdOfOption, hfind]; rfl

theorem snippet_from_id_ok (db : MDB) (i : Nat) (co : Option WorkshopCollection)
    (h : (db.findSnippetDoc i).isSome) :
    WorkshopSnippet.from_id db (some i) 0 co = .ok ((db.snippetDocOf i).toObject co) := by
  rw [WorkshopSnippet.from_id, MDB.snippetDocOf]
  cases hfind : db.findSnippetDoc i with
  | none => rw [hfind] at h; simp at h
  | some d => simp [objectIdOfOption, hfind]; rfl

theorem load_aliases_ok (db : MDB) (c : WorkshopCollection)
    (h : ∀ i ∈ c.alias_ids, (db.findAliasDoc i).isSome) :
    WorkshopCollection.load_aliases db c = .ok (db.withLoadedAliases c, db.loadedAliasesOf c) := by
  rw [WorkshopCollection.load_aliases,
    mapM_ok_of_forall _ (fun i => WorkshopAlias.from_dict (db.aliasDocOf i) (some c) none)
      c.alias_ids (fun i hi => alias_from_id_ok db i (some c) none (h i hi))]
  rfl

theorem load_snippets_ok (db : MDB) (c : WorkshopCollection)
    (h : ∀ i ∈ c.snippet_ids, (db.findSnippetDoc i).isSome) :
    WorkshopCollection.load_snippets db c = .ok (db.withLoadedSnippets c, db.loadedSnippetsOf c) := by
  rw [WorkshopCollection.load_snippets,
    mapM_ok_of_forall _ (fun i => (db.snippetDocOf i).toObject (some c))
      c.snippet_ids (fun i hi => snippet_from_id_ok db i (some c) (h i hi))]
  rfl


theorem gen_alias_bindings_ok (db : MDB) (c : WorkshopCollection)
    (hc : c.aliasesCache = none)
    (h : ∀ i ∈ c.alias_ids, (db.findAliasDoc i).isSome) :
    WorkshopCollection.generate_default_alias_bindings db c =
      .ok (db.withLoadedAliases c, db.defaultAliasBindingsOf c.alias_ids) := by
  rw [WorkshopCollection.generate_default_alias_bindings, hc, load_aliases_ok db c h]
  simp only [Bind.bind, Except.bind, pure, Except.pure, Except.ok.injEq, Prod.mk.injEq]
  refine ⟨by trivial, ?_⟩
  rw [MDB.loadedAliasesOf, MDB.defaultAliasBindingsOf, List.map_map]
  refine List.map_congr_left (fun i hi => ?_)
  simp only [Function.comp_apply, WorkshopAlias.from_dict, WorkshopAlias.data, MDB.aliasNameOf,
    Binding.mk.injEq]
  exact ⟨by trivial, aliasDocOf_id db i (h i hi)⟩

theorem gen_snippet_bindings_ok (db : MDB) (c : WorkshopCollection)
    (hc : c.snippetsCache = none)
    (h : ∀ i ∈ c.snippet_ids, (db.findSnippetDoc i).isSome) :
    WorkshopCollection.generate_default_snippet_bindings db c =
      .ok (db.withLoadedSnippets c, db.defaultSnippetBindingsOf c.snippet_ids) := by
  rw [WorkshopCollection.generate_default_snippet_bindings, hc, load_snippets_ok db c h]
  simp only [Bind.bind, Except.bind, pure, Except.pure, Except.ok.injEq, Prod.mk.injEq]
  refine ⟨by trivial, ?_⟩
  rw [MDB.loadedSnippetsOf, MDB.defaultSnippetBindingsOf, List.map_map]
  refine List.map_congr_left (fun i hi => ?_)
  simp only [Function.comp_apply, SnippetDoc.toObject, WorkshopSnippet.data, MDB.snippetNameOf,
    Binding.mk.injEq]
  exact ⟨by trivial, snippetDocOf_id db i (h i hi)⟩

theorem foldr_skip_missing (db : MDB) (l : List Nat) :
    l.foldr (fun coll_id acc =>
        match WorkshopCollection.from_id db coll_id with
        | .ok c => c :: acc
        | .error _ => acc) [] =
      l.filterMap (fun coll_id => (WorkshopCollection.from_id db coll_id).toOption) := by
  induction l with
  | nil => rfl
  | cons x xs ih =>
    rw [List.foldr_cons, List.filterMap_cons, ih]
    cases hfx : WorkshopCollection.from_id db x <;> simp [hfx, Except.toOption]

/-! The claims. -/

/-- C5: for every owner, name, description and image, `create_new` returns a
collection whose publication state is PRIVATE, whose subscriber and
guild-subscriber counters are zero, whose alias and snippet membership lists
are empty and whose assigned identifier is set; `is_owner(owner_id)` is true
on it and `is_owner(u)` is false for every `u` different from the owner. -/
theorem create_new_defaults (db : MDB) (newId now : Nat) (user_id : Int)
    (name description : String) (image : Option String) :
    let c := (WorkshopCollection.create_new db newId now user_id name description image).2
    c.publish_state = .PRIVATE ∧ c.approx_num_subscribers = 0 ∧
      c.approx_num_guild_subscribers = 0 ∧ c.alias_ids = [] ∧ c.snippet_ids = [] ∧
      c.id = some newId ∧ c.is_owner user_id = true ∧
      ∀ u : Int, u ≠ user_id → c.is_owner u = false := by
  refine ⟨rfl, rfl, rfl, rfl, rfl, rfl, ?_, ?_⟩
  · simp [WorkshopCollection.create_new, WorkshopCollection.init, WorkshopCollection.is_owner]
  · intro u hu
    simp only [WorkshopCollection.create_new, WorkshopCollection.init, WorkshopCollection.is_owner]
    exact beq_eq_false_iff_ne.mpr hu

theorem create_new_defaults_witness :
    ((6 : Int) ≠ 5) ∧
      ((WorkshopCollection.create_new dbW 11 0 5 "n" "d" none).2.is_owner 6 = false) :=
  ⟨by decide, (create_new_defaults dbW 11 0 5 "n" "d" none).2.2.2.2.2.2.2 6 (by decide)⟩

/-- C10: `unsubscribe` and `unset_server_active` check no precondition in
this layer: whatever the state (including a subscriber that was never
subscribed), the stored counter of the collection's document is decremented
by one — so these operations do not keep the counters nonnegative. -/
theorem unsubscribe_unconditional_decrement (db : MDB) (c : WorkshopCollection)
    (user_id guild_id : Int) (now now' : Nat) :
    (WorkshopCollection.unsubscribe db c user_id now).collNumSubscribers c.id =
      (db.collNumSubscribers c.id).map (fun n => n - 1) ∧
    (WorkshopCollection.unset_server_active db c guild_id now').collNumGuildSubscribers c.id =
      (db.collNumGuildSubscribers c.id).map (fun n => n - 1) := by
  constructor
  · have hcols : (WorkshopCollection.unsubscribe db c user_id now).workshop_collections =
        updateFirst (fun d => some d.id == c.id)
          (fun d => { d with num_subscribers := d.num_subscribers + (-1) })
          db.workshop_collections := rfl
    rw [MDB.collNumSubscribers, MDB.collNumSubscribers, hcols,
      find?_updateFirst (fun d => some d.id == c.id)
        (fun d => { d with num_subscribers := d.num_subscribers + (-1) })
        db.workshop_collections (fun x => rfl)]
    cases db.workshop_collections.find? (fun d => some d.id == c.id) with
    | none => rfl
    | some d => simp [sub_eq_add_neg]
  · have hcols : (WorkshopCollection.unset_server_active db c guild_id now').workshop_collections =
        updateFirst (fun d => some d.id == c.id)
          (fun d => { d with num_guild_subscribers := d.num_guild_subscribers + (-1) })
          db.workshop_collections := rfl
    rw [MDB.collNumGuildSubscribers, MDB.collNumGuildSubscribers, hcols,
      find?_updateFirst (fun d => some d.id == c.id)
        (fun d => { d with num_guild_subscribers := d.num_guild_subscribers + (-1) })
        db.workshop_collections (fun x => rfl)]
    cases db.workshop_collections.find? (fun d => some d.id == c.id) with
    | none => rfl
    | some d => simp [sub_eq_add_neg]

/-- C7: `user_subscribed` (resp. `server_subscribed`) yields exactly the
collections of the subscriber's active subscription ids that resolve to an
existing document, in subscription order; an id whose collection no longer
exists contributes nothing (and, the result being a plain list, no
`CollectionNotFound` ever reaches the caller). -/
theorem subscribed_skips_missing (db : MDB) (user_id guild_id : Int) :
    WorkshopCollection.user_subscribed db user_id =
      (SubscriberMixin.my_sub_ids db user_id).filterMap
        (fun coll_id => (WorkshopCollection.from_id db coll_id).toOption) ∧
    WorkshopCollection.server_subscribed db guild_id =
      (GuildActiveMixin.guild_active_ids db guild_id).filterMap
        (fun coll_id => (WorkshopCollection.from_id db coll_id).toOption) :=
  ⟨foldr_skip_missing db _, foldr_skip_missing db _⟩

/-- C9: on a root alias (stored parent id absent), `load_parent()` coerces the
missing id into a freshly generated ObjectId, the lookup misses and
`CollectableNotFound` is raised; and the `parent` accessor raises the same
"not loaded" `AttributeError` on every alias whose parent cache is unset,
whether the alias has no parent or the parent merely has not been loaded. -/
theorem load_parent_root_alias (db : MDB) (a : WorkshopAlias) (freshId : Nat)
    (hroot : a.parent_id = none) (hfresh : db.findAliasDoc freshId = none) :
    WorkshopAlias.load_parent db freshId a = .error .collectableNotFound ∧
    (∀ b : WorkshopAlias, b.parentCache = none →
      b.parent = .error (.attributeError "Parent is not loaded yet - run load_parent() first")) := by
  constructor
  · rw [WorkshopAlias.load_parent, hroot, WorkshopAlias.from_id]
    simp [objectIdOfOption, hfresh, throw, throwThe, MonadExcept.throw, Bind.bind, Except.bind]
  · intro b hb
    rw [WorkshopAlias.parent, hb]
    rfl

theorem load_parent_root_alias_witness :
    rootAliasW.parent_id = none ∧ dbW.findAliasDoc 77 = none ∧
      WorkshopAlias.load_parent dbW 77 rootAliasW = .error .collectableNotFound :=
  ⟨rfl, rfl, (load_parent_root_alias dbW rootAliasW 77 rfl rfl).1⟩

/-- C8: on a freshly constructed collection or collectable (lazy caches
unset), each relationship accessor — `aliases`, `snippets`, `collection`,
`parent`, `subcommands` — fails with its "not loaded" `AttributeError`
rather than returning empty data; and after `load_aliases()`/`load_snippets()`
succeeds, the accessor returns exactly the loaded list (the conjuncts
quantify over every pre-state, so re-running a load replaces any previously
cached list). -/
theorem lazy_load_guards :
    (∀ (_id : Option Nat) (name description : String) (image : Option String) (owner : Int)
        (alias_ids snippet_ids : List Nat) (ps : PublicationState) (ns ngs : Int)
        (le ca : Nat) (tags : List String),
      (WorkshopCollection.init _id name description image owner alias_ids snippet_ids
          ps ns ngs le ca tags).aliases =
        .error (.attributeError "Aliases are not loaded yet - run load_aliases() first") ∧
      (WorkshopCollection.init _id name description image owner alias_ids snippet_ids
          ps ns ngs le ca tags).snippets =
        .error (.attributeError "Snippets are not loaded yet - run load_snippets() first")) ∧
    (∀ raw : AliasDoc,
      (WorkshopAlias.from_dict raw none none).collection =
        .error (.attributeError "Collection is not loaded - run load_collection() first") ∧
      (WorkshopAlias.from_dict raw none none).parent =
        .error (.attributeError "Parent is not loaded yet - run load_parent() first") ∧
      (WorkshopAlias.from_dict raw none none).subcommands =
        .error (.attributeError "Subcommands are not loaded yet - run load_subcommands() first")) ∧
    (∀ raw : SnippetDoc,
      (raw.toObject none).collection =
        .error (.attributeError "Collection is not loaded - run load_collection() first")) ∧
    (∀ (db : MDB) (c c' : WorkshopCollection) (l : List WorkshopAlias),
      WorkshopCollection.load_aliases db c = .ok (c', l) → c'.aliases = .ok l) ∧
    (∀ (db : MDB) (c c' : WorkshopCollection) (l : List WorkshopSnippet),
      WorkshopCollection.load_snippets db c = .ok (c', l) → c'.snippets = .ok l) := by
  refine ⟨fun _ _ _ _ _ _ _ _ _ _ _ _ _ => ⟨rfl, rfl⟩, fun raw => ⟨rfl, rfl, rfl⟩, fun raw => rfl,
    ?_, ?_⟩
  · intro db c c' l h
    rw [WorkshopCollection.load_aliases] at h
    cases hm : c.alias_ids.mapM
        (fun alias_id => WorkshopAlias.from_id db (some alias_id) 0 (some c) none) with
    | error e => rw [hm] at h; exact absurd h (by simp [Bind.bind, Except.bind])
    | ok l' =>
      rw [hm] at h
      simp only [Bind.bind, Except.bind, pure, Except.pure, Except.ok.injEq, Prod.mk.injEq] at h
      obtain ⟨hc', hl⟩ := h
      rw [← hc', ← hl]
      rfl
  · intro db c c' l h
    rw [WorkshopCollection.load_snippets] at h
    cases hm : c.snippet_ids.mapM
        (fun snippet_id => WorkshopSnippet.from_id db (some snippet_id) 0 (some c)) with
    | error e => rw [hm] at h; exact absurd h (by simp [Bind.bind, Except.bind])
    | ok l' =>
      rw [hm] at h
      simp only [Bind.bind, Except.bind, pure, Except.pure, Except.ok.injEq, Prod.mk.injEq] at h
      obtain ⟨hc', hl⟩ := h
      rw [← hc', ← hl]
      rfl

theorem lazy_load_guards_witness :
    WorkshopCollection.load_aliases dbW cW = .ok (dbW.withLoadedAliases cW, [aliasW]) ∧
      (dbW.withLoadedAliases cW).aliases = .ok [aliasW] :=
  ⟨rfl, lazy_load_guards.2.2.2.1 dbW cW (dbW.withLoadedAliases cW) [aliasW] rfl⟩


theorem lookup_cons (t k : String) (vs : List Int) (rest : List (String × List Int)) :
    List.lookup t ((k, vs) :: rest) = if t = k then some vs else List.lookup t rest := by
  rw [List.lookup]
  by_cases h : t = k
  · rw [if_pos h, h, beq_self_eq_true]
  · rw [if_neg h, beq_eq_false_iff_ne.mpr h]

theorem lookup_defaultdictAppend (out : List (String × List Int)) (k : String) (v : Int)
    (t : String) :
    List.lookup t (defaultdictAppend out k v) =
      if t = k then some ((List.lookup t out).getD [] ++ [v]) else List.lookup t out := by
  induction out with
  | nil =>
    rw [defaultdictAppend, lookup_cons]
    by_cases ht : t = k
    · rw [if_pos ht, if_pos ht]
      simp [List.lookup]
    · rw [if_neg ht, if_neg ht]
  | cons p rest ih =>
    obtain ⟨k', vs⟩ := p
    rw [defaultdictAppend]
    by_cases hk : k' = k
    · subst hk
      rw [if_pos rfl, lookup_cons, lookup_cons]
      by_cases ht : t = k'
      · rw [if_pos ht, if_pos ht, if_pos ht]
        simp
      · rw [if_neg ht, if_neg ht, if_neg ht]
    · rw [if_neg hk, lookup_cons, lookup_cons]
      by_cases ht : t = k'
      · have htk : ¬t = k := fun h => hk (ht.symm.trans h)
        rw [if_pos ht, if_neg htk, if_pos ht]
      · rw [if_neg ht, if_neg ht, ih]

theorem lookup_get_entitlements_foldl (ents : List RequiredEntitlement) (t : String) :
    ∀ out : List (String × List Int),
    List.lookup t (ents.foldl (fun o e => defaultdictAppend o e.entity_type e.entity_id) out) =
      if ents.filter (fun e => e.entity_type == t) = [] then List.lookup t out
      else some ((List.lookup t out).getD [] ++
        (ents.filter (fun e => e.entity_type == t)).map (fun e => e.entity_id)) := by
  induction ents with
  | nil => intro out; simp
  | cons e es ih =>
    intro out
    rw [List.foldl_cons, ih]
    by_cases he : e.entity_type = t
    · subst he
      by_cases hes : es.filter (fun x => x.entity_type == e.entity_type) = [] <;>
        simp [List.filter_cons, lookup_defaultdictAppend, hes]
    · by_cases hes : es.filter (fun x => x.entity_type == t) = [] <;>
        simp [List.filter_cons, lookup_defaultdictAppend, hes, he, Ne.symm he]

/-- C6: `get_entitlements()` maps each entity type present in the entitlement
list to the list of its entitlements' entity ids, preserving the entitlement
list's order within each group; an entity type with zero entitlements is
absent from the mapping (no key, rather than an empty list). -/
theorem get_entitlements_groups (d : CollectableData) (t : String) :
    List.lookup t d.get_entitlements =
      if d.entitlements.filter (fun e => e.entity_type == t) = [] then none
      else some ((d.entitlements.filter (fun e => e.entity_type == t)).map
        (fun e => e.entity_id)) := by
  rw [CollectableData.get_entitlements, lookup_get_entitlements_foldl]
  by_cases h : d.entitlements.filter (fun e => e.entity_type == t) = [] <;>
    simp [h, List.lookup]

theorem bindings_sanity_check_spec {α : Type} (from_id : Nat → Except WError α)
    (objName : α → String) (objId : α → Nat) (nameOf : Nat → String)
    (the_ids : List Nat) (the_bindings : List Binding)
    (h : ∀ i ∈ the_ids, ∃ o, from_id i = .ok o ∧ objName o = nameOf i ∧ objId o = i) :
    WorkshopCollection.bindings_sanity_check from_id objName objId the_ids the_bindings =
      .ok (the_bindings.filter (fun b => the_ids.contains b.id) ++
        (dedupKeepFirst (the_ids.filter
            (fun i => !((the_bindings.map (fun b => b.id)).contains i)))).map
          (fun i => ({ name := nameOf i, id := i } : Binding))) := by
  rw [WorkshopCollection.bindings_sanity_check]
  have hsub : ∀ i ∈ dedupKeepFirst (the_ids.filter
      (fun i => !((the_bindings.map (fun b => b.id)).contains i))), i ∈ the_ids := by
    intro i hi
    exact (List.mem_filter.mp (mem_dedupKeepFirst hi)).1
  rw [mapM_ok_of_forall _ (fun i => ({ name := nameOf i, id := i } : Binding)) _ ?hok]
  case hok =>
    intro i hi
    obtain ⟨o, ho, hn, hid⟩ := h i (hsub i hi)
    rw [ho]
    show Except.ok ({ name := objName o, id := objId o } : Binding) =
      Except.ok ({ name := nameOf i, id := i } : Binding)
    rw [hn, hid]
  show Except.ok _ = _
  rw [Except.ok.injEq, List.filter_append]
  have hkeep : (List.map (fun i => ({ name := nameOf i, id := i } : Binding))
        (dedupKeepFirst (the_ids.filter
          (fun i => !((the_bindings.map (fun b => b.id)).contains i))))).filter
      (fun b => the_ids.contains b.id) =
      List.map (fun i => ({ name := nameOf i, id := i } : Binding))
        (dedupKeepFirst (the_ids.filter
          (fun i => !((the_bindings.map (fun b => b.id)).contains i)))) := by
    refine List.filter_eq_self.mpr ?_
    intro b hb
    obtain ⟨i, hi, rfl⟩ := List.mem_map.mp hb
    exact List.elem_eq_true_of_mem (hsub i hi)
  rw [hkeep]

/-- C1: for membership list M and stored binding list B, the binding
reconciliation (as invoked by `update_alias_bindings` and
`update_snippet_bindings`) returns exactly B restricted to ids in M —
existing bindings with ids in M keep their custom names, every binding whose
id is not in M is dropped — followed by one default `{name, id}` binding
(using the object's stored name) per id of M that had no binding in B. -/
theorem bindings_reconciliation (db : MDB) (c : WorkshopCollection) (sub_doc : SubDoc)
    (hA : ∀ i ∈ c.alias_ids, (db.findAliasDoc i).isSome)
    (hS : ∀ i ∈ c.snippet_ids, (db.findSnippetDoc i).isSome) :
    WorkshopCollection.update_alias_bindings db c sub_doc =
      .ok { sub_doc with
            alias_bindings :=
              sub_doc.alias_bindings.filter (fun b => c.alias_ids.contains b.id) ++
                (dedupKeepFirst (c.alias_ids.filter
                    (fun i => !((sub_doc.alias_bindings.map (fun b => b.id)).contains i)))).map
                  (fun i => ({ name := db.aliasNameOf i, id := i } : Binding)) } ∧
    WorkshopCollection.update_snippet_bindings db c sub_doc =
      .ok { sub_doc with
            snippet_bindings :=
              sub_doc.snippet_bindings.filter (fun b => c.snippet_ids.contains b.id) ++
                (dedupKeepFirst (c.snippet_ids.filter
                    (fun i => !((sub_doc.snippet_bindings.map (fun b => b.id)).contains i)))).map
                  (fun i => ({ name := db.snippetNameOf i, id := i } : Binding)) } := by
  constructor
  · rw [WorkshopCollection.update_alias_bindings,
      bindings_sanity_check_spec _ _ _ db.aliasNameOf _ _ (fun i hi =>
        ⟨WorkshopAlias.from_dict (db.aliasDocOf i) (some c) none,
         alias_from_id_ok db i (some c) none (hA i hi), rfl, aliasDocOf_id db i (hA i hi)⟩)]
    rfl
  · rw [WorkshopCollection.update_snippet_bindings,
      bindings_sanity_check_spec _ _ _ db.snippetNameOf _ _ (fun i hi =>
        ⟨(db.snippetDocOf i).toObject (some c),
         snippet_from_id_ok db i (some c) (hS i hi), rfl, snippetDocOf_id db i (hS i hi)⟩)]
    rfl

theorem bindings_reconciliation_witness :
    (∀ i ∈ cW.alias_ids, (dbW.findAliasDoc i).isSome) ∧
    (∀ i ∈ cW.snippet_ids, (dbW.findSnippetDoc i).isSome) ∧
    WorkshopCollection.update_alias_bindings dbW cW subDocW =
      .ok { subDocW with alias_bindings := [{ name := "a1", id := 1 }] } :=
  ⟨by decide, by decide,
   (bindings_reconciliation dbW cW subDocW (by decide) (by decide)).1⟩

/-- C2: `subscribe` fails with NotAllowed when the user is already
subscribed; fails with NotAllowed ("private") when the collection is PRIVATE
and the user is not the owner; and otherwise (including the owner subscribing
to their own PRIVATE collection) succeeds, inserting one "subscribe" record
holding one default `{name, id}` binding per current alias and snippet (each
using the object's stored name), incrementing the stored subscriber counter
by one, and appending a subscribe analytics event. -/
theorem subscribe_spec (db : MDB) (c : WorkshopCollection) (user_id : Int) (now : Nat) :
    (WorkshopCollection.is_subscribed db c user_id = true →
      WorkshopCollection.subscribe db c user_id now =
        .error (.notAllowed "You are already subscribed to this.")) ∧
    (WorkshopCollection.is_subscribed db c user_id = false →
      c.publish_state = .PRIVATE → c.is_owner user_id = false →
      WorkshopCollection.subscribe db c user_id now =
        .error (.notAllowed "This collection is private.")) ∧
    (WorkshopCollection.is_subscribed db c user_id = false →
      (c.publish_state = .PRIVATE → c.is_owner user_id = true) →
      c.aliasesCache = none → c.snippetsCache = none →
      (∀ i ∈ c.alias_ids, (db.findAliasDoc i).isSome) →
      (∀ i ∈ c.snippet_ids, (db.findSnippetDoc i).isSome) →
      ∃ c', WorkshopCollection.subscribe db c user_id now = .ok
        ({ db with
           workshop_subscriptions := db.workshop_subscriptions ++
             [{ type := "subscribe", subscriber_id := user_id, object_id := c.id,
                alias_bindings := db.defaultAliasBindingsOf c.alias_ids,
                snippet_bindings := db.defaultSnippetBindingsOf c.snippet_ids }],
           workshop_collections := updateFirst (fun d => some d.id == c.id)
             (fun d => { d with num_subscribers := d.num_subscribers + 1 })
             db.workshop_collections,
           analytics_alias_events := db.analytics_alias_events ++
             [{ type := "subscribe", object_id := c.id, timestamp := now }] }, c')) := by
  refine ⟨?_, ?_, ?_⟩
  · intro h1
    rw [WorkshopCollection.subscribe, if_pos h1]
    rfl
  · intro h1 h2 h3
    have hcond1 : ¬WorkshopCollection.is_subscribed db c user_id = true := by
      rw [h1]; simp
    rw [WorkshopCollection.subscribe, if_neg hcond1, if_pos ⟨h2, h3⟩]
    rfl
  · intro h1 h2 hca hcs hA hS
    have hcond1 : ¬WorkshopCollection.is_subscribed db c user_id = true := by
      rw [h1]; simp
    have hcond2 : ¬(c.publish_state = .PRIVATE ∧ c.is_owner user_id = false) := by
      rintro ⟨hp, ho⟩
      rw [h2 hp] at ho
      cases ho
    refine ⟨db.withLoadedSnippets (db.withLoadedAliases c), ?_⟩
    rw [WorkshopCollection.subscribe, if_neg hcond1, if_neg hcond2,
      gen_alias_bindings_ok db c hca hA]
    simp only [Bind.bind, Except.bind]
    rw [gen_snippet_bindings_ok db (db.withLoadedAliases c) hcs hS]
    simp only [Bind.bind, Except.bind]
    rfl

theorem subscribe_spec_witness :
    WorkshopCollection.is_subscribed dbW cW 7 = false ∧
    cW.aliasesCache = none ∧ cW.snippetsCache = none ∧
    (∃ c', WorkshopCollection.subscribe dbW cW 7 99 = .ok
      ({ dbW with
         workshop_subscriptions := dbW.workshop_subscriptions ++
           [{ type := "subscribe", subscriber_id := 7, object_id := cW.id,
              alias_bindings := dbW.defaultAliasBindingsOf cW.alias_ids,
              snippet_bindings := dbW.defaultSnippetBindingsOf cW.snippet_ids }],
         workshop_collections := updateFirst (fun d => some d.id == cW.id)
           (fun d => { d with num_subscribers := d.num_subscribers + 1 })
           dbW.workshop_collections,
         analytics_alias_events := dbW.analytics_alias_events ++
           [{ type := "subscribe", object_id := cW.id, timestamp := 99 }] }, c')) :=
  ⟨rfl, rfl, rfl,
   (subscribe_spec dbW cW 7 99).2.2 rfl (fun hp => absurd hp (by decide)) rfl rfl
     (by decide) (by decide)⟩

/-- C3 counterexample: a PRIVATE collection, not active on the guild, with
the requester id equal to the owner id — by the claim the activation should
succeed, but `set_server_active` rejects every PRIVATE collection with
NotAllowed ("private"): the owner exemption exists only in `subscribe`. -/
theorem set_server_active_private_owner_rejected :
    WorkshopCollection.is_server_active dbW cPrivW 5 = false ∧
    cPrivW.is_owner 5 = true ∧ cPrivW.publish_state = .PRIVATE ∧
    WorkshopCollection.set_server_active dbW cPrivW 5 0 =
      .error (.notAllowed "This collection is private.") :=
  ⟨rfl, rfl, rfl, rfl⟩

/-- C3 (amended): `set_server_active` fails with NotAllowed when the
collection is already active on the guild; fails with NotAllowed ("private")
whenever the collection is PRIVATE — for every requester, the owner included;
and otherwise succeeds, inserting a "server_active" record with default
bindings, incrementing the stored guild-subscriber counter by one, and
appending an analytics event. -/
theorem set_server_active_spec (db : MDB) (c : WorkshopCollection) (guild_id : Int) (now : Nat) :
    (WorkshopCollection.is_server_active db c guild_id = true →
      WorkshopCollection.set_server_active db c guild_id now =
        .error (.notAllowed "This collection is already installed on this server.")) ∧
    (WorkshopCollection.is_server_active db c guild_id = false →
      c.publish_state = .PRIVATE →
      WorkshopCollection.set_server_active db c guild_id now =
        .error (.notAllowed "This collection is private.")) ∧
    (WorkshopCollection.is_server_active db c guild_id = false →
      c.publish_state ≠ .PRIVATE →
      c.aliasesCache = none → c.snippetsCache = none →
      (∀ i ∈ c.alias_ids, (db.findAliasDoc i).isSome) →
      (∀ i ∈ c.snippet_ids, (db.findSnippetDoc i).isSome) →
      ∃ c', WorkshopCollection.set_server_active db c guild_id now = .ok
        ({ db with
           workshop_subscriptions := db.workshop_subscriptions ++
             [{ type := "server_active", subscriber_id := guild_id, object_id := c.id,
                alias_bindings := db.defaultAliasBindingsOf c.alias_ids,
                snippet_bindings := db.defaultSnippetBindingsOf c.snippet_ids }],
           workshop_collections := updateFirst (fun d => some d.id == c.id)
             (fun d => { d with num_guild_subscribers := d.num_guild_subscribers + 1 })
             db.workshop_collections,
           analytics_alias_events := db.analytics_alias_events ++
             [{ type := "server_subscribe", object_id := c.id, timestamp := now }] }, c')) := by
  refine ⟨?_, ?_, ?_⟩
  · intro h1
    rw [WorkshopCollection.set_server_active, if_pos h1]
    rfl
  · intro h1 h2
    have hcond1 : ¬WorkshopCollection.is_server_active db c guild_id = true := by
      rw [h1]; simp
    rw [WorkshopCollection.set_server_active, if_neg hcond1, if_pos h2]
    rfl
  · intro h1 h2 hca hcs hA hS
    have hcond1 : ¬WorkshopCollection.is_server_active db c guild_id = true := by
      rw [h1]; simp
    refine ⟨db.withLoadedSnippets (db.withLoadedAliases c), ?_⟩
    rw [WorkshopCollection.set_server_active, if_neg hcond1, if_neg h2,
      gen_alias_bindings_ok db c hca hA]
    simp only [Bind.bind, Except.bind]
    rw [gen_snippet_bindings_ok db (db.withLoadedAliases c) hcs hS]
    simp only [Bind.bind, Except.bind]
    rfl

theorem set_server_active_spec_witness :
    WorkshopCollection.is_server_active dbW cW 9 = false ∧
    cW.publish_state ≠ .PRIVATE ∧
    (∃ c', WorkshopCollection.set_server_active dbW cW 9 42 = .ok
      ({ dbW with
         workshop_subscriptions := dbW.workshop_subscriptions ++
           [{ type := "server_active", subscriber_id := 9, object_id := cW.id,
              alias_bindings := dbW.defaultAliasBindingsOf cW.alias_ids,
              snippet_bindings := dbW.defaultSnippetBindingsOf cW.snippet_ids }],
         workshop_collections := updateFirst (fun d => some d.id == cW.id)
           (fun d => { d with num_guild_subscribers := d.num_guild_subscribers + 1 })
           dbW.workshop_collections,
         analytics_alias_events := dbW.analytics_alias_events ++
           [{ type := "server_subscribe", object_id := cW.id, timestamp := 42 }] }, c')) :=
  ⟨rfl, by decide,
   (set_server_active_spec dbW cW 9 42).2.2 rfl (by decide) rfl rfl (by decide) (by decide)⟩

theorem gen_alias_id (db : MDB) (c c' : WorkshopCollection) (bs : List Binding)
    (h : WorkshopCollection.generate_default_alias_bindings db c = .ok (c', bs)) :
    c'.id = c.id := by
  rw [WorkshopCollection.generate_default_alias_bindings] at h
  cases hc : c.aliasesCache with
  | some l =>
    rw [hc] at h
    simp only [pure, Except.pure, Except.ok.injEq, Prod.mk.injEq] at h
    rw [← h.1]
  | none =>
    rw [hc, WorkshopCollection.load_aliases] at h
    cases hm : c.alias_ids.mapM
        (fun alias_id => WorkshopAlias.from_id db (some alias_id) 0 (some c) none) with
    | error e =>
      rw [hm] at h
      simp [Bind.bind, Except.bind] at h
    | ok l' =>
      rw [hm] at h
      simp only [Bind.bind, Except.bind, pure, Except.pure, Except.ok.injEq, Prod.mk.injEq] at h
      rw [← h.1]

theorem gen_snippet_id (db : MDB) (c c' : WorkshopCollection) (bs : List Binding)
    (h : WorkshopCollection.generate_default_snippet_bindings db c = .ok (c', bs)) :
    c'.id = c.id := by
  rw [WorkshopCollection.generate_default_snippet_bindings] at h
  cases hc : c.snippetsCache with
  | some l =>
    rw [hc] at h
    simp only [pure, Except.pure, Except.ok.injEq, Prod.mk.injEq] at h
    rw [← h.1]
  | none =>
    rw [hc, WorkshopCollection.load_snippets] at h
    cases hm : c.snippet_ids.mapM
        (fun snippet_id => WorkshopSnippet.from_id db (some snippet_id) 0 (some c)) with
    | error e =>
      rw [hm] at h
      simp [Bind.bind, Except.bind] at h
    | ok l' =>
      rw [hm] at h
      simp only [Bind.bind, Except.bind, pure, Except.pure, Except.ok.injEq, Prod.mk.injEq] at h
      rw [← h.1]

theorem subscribe_ok_parts (db : MDB) (c : WorkshopCollection) (u : Int) (now : Nat)
    (db' : MDB) (c' : WorkshopCollection)
    (h : WorkshopCollection.subscribe db c u now = .ok (db', c')) :
    db'.workshop_collections = updateFirst (fun d => some d.id == c.id)
      (fun d => { d with num_subscribers := d.num_subscribers + 1 })
      db.workshop_collections ∧
    c'.id = c.id := by
  rw [WorkshopCollection.subscribe] at h
  by_cases h1 : WorkshopCollection.is_subscribed db c u = true
  · rw [if_pos h1] at h
    simp [throw, throwThe, MonadExcept.throw] at h
  · rw [if_neg h1] at h
    by_cases h2 : c.publish_state = .PRIVATE ∧ c.is_owner u = false
    · rw [if_pos h2] at h
      simp [throw, throwThe, MonadExcept.throw] at h
    · rw [if_neg h2] at h
      cases hga : WorkshopCollection.generate_default_alias_bindings db c with
      | error e =>
        rw [hga] at h
        simp [Bind.bind, Except.bind] at h
      | ok p =>
        obtain ⟨c₁, ab⟩ := p
        rw [hga] at h
        simp only [Bind.bind, Except.bind] at h
        cases hgs : WorkshopCollection.generate_default_snippet_bindings db c₁ with
        | error e =>
          rw [hgs] at h
          simp [Bind.bind, Except.bind] at h
        | ok q =>
          obtain ⟨c₂, sb⟩ := q
          rw [hgs] at h
          simp only [Bind.bind, Except.bind, pure, Except.pure, Except.ok.injEq,
            Prod.mk.injEq] at h
          obtain ⟨hdb, hc⟩ := h
          have hid1 : c₁.id = c.id := gen_alias_id db c c₁ ab hga
          have hid2 : c₂.id = c₁.id := gen_snippet_id db c₁ c₂ sb hgs
          constructor
          · rw [← hdb]
            show updateFirst (fun d => some d.id == c₂.id)
              (fun d => { d with num_subscribers := d.num_subscribers + 1 })
              db.workshop_collections = _
            rw [hid2, hid1]
          · rw [← hc, hid2, hid1]

theorem set_server_active_ok_parts (db : MDB) (c : WorkshopCollection) (g : Int) (now : Nat)
    (db' : MDB) (c' : WorkshopCollection)
    (h : WorkshopCollection.set_server_active db c g now = .ok (db', c')) :
    db'.workshop_collections = updateFirst (fun d => some d.id == c.id)
      (fun d => { d with num_guild_subscribers := d.num_guild_subscribers + 1 })
      db.workshop_collections ∧
    c'.id = c.id := by
  rw [WorkshopCollection.set_server_active] at h
  by_cases h1 : WorkshopCollection.is_server_active db c g = true
  · rw [if_pos h1] at h
    simp [throw, throwThe, MonadExcept.throw] at h
  · rw [if_neg h1] at h
    by_cases h2 : c.publish_state = .PRIVATE
    · rw [if_pos h2] at h
      simp [throw, throwThe, MonadExcept.throw] at h
    · rw [if_neg h2] at h
      cases hga : WorkshopCollection.generate_default_alias_bindings db c with
      | error e =>
        rw [hga] at h
        simp [Bind.bind, Except.bind] at h
      | ok p =>
        obtain ⟨c₁, ab⟩ := p
        rw [hga] at h
        simp only [Bind.bind, Except.bind] at h
        cases hgs : WorkshopCollection.generate_default_snippet_bindings db c₁ with
        | error e =>
          rw [hgs] at h
          simp [Bind.bind, Except.bind] at h
        | ok q =>
          obtain ⟨c₂, sb⟩ := q
          rw [hgs] at h
          simp only [Bind.bind, Except.bind, pure, Except.pure, Except.ok.injEq,
            Prod.mk.injEq] at h
          obtain ⟨hdb, hc⟩ := h
          have hid1 : c₁.id = c.id := gen_alias_id db c c₁ ab hga
          have hid2 : c₂.id = c₁.id := gen_snippet_id db c₁ c₂ sb hgs
          constructor
          · rw [← hdb]
            show updateFirst (fun d => some d.id == c₂.id)
              (fun d => { d with num_guild_subscribers := d.num_guild_subscribers + 1 })
              db.workshop_collections = _
            rw [hid2, hid1]
          · rw [← hc, hid2, hid1]

/-- C4: whenever `subscribe` succeeds, `unsubscribe` restores the stored
subscriber counter to its prior value, and likewise `set_server_active`
followed by `unset_server_active` for the guild-subscriber counter (one
sequential execution, no interleaving). -/
theorem subscribe_unsubscribe_roundtrip (db : MDB) (c : WorkshopCollection)
    (user_id guild_id : Int) (now now' : Nat) (db₁ db₂ : MDB) (c₁ c₂ : WorkshopCollection) :
    (WorkshopCollection.subscribe db c user_id now = .ok (db₁, c₁) →
      (WorkshopCollection.unsubscribe db₁ c₁ user_id now').collNumSubscribers c.id =
        db.collNumSubscribers c.id) ∧
    (WorkshopCollection.set_server_active db c guild_id now = .ok (db₂, c₂) →
      (WorkshopCollection.unset_server_active db₂ c₂ guild_id now').collNumGuildSubscribers c.id =
        db.collNumGuildSubscribers c.id) := by
  constructor
  · intro h
    obtain ⟨hcols, hid⟩ := subscribe_ok_parts db c user_id now db₁ c₁ h
    have hu : (WorkshopCollection.unsubscribe db₁ c₁ user_id now').workshop_collections =
        updateFirst (fun d => some d.id == c₁.id)
          (fun d => { d with num_subscribers := d.num_subscribers + (-1) })
          db₁.workshop_collections := rfl
    rw [MDB.collNumSubscribers, MDB.collNumSubscribers, hu, hid, hcols,
      find?_updateFirst (fun d => some d.id == c.id)
        (fun d => { d with num_subscribers := d.num_subscribers + (-1) })
        (updateFirst (fun d => some d.id == c.id)
          (fun d => { d with num_subscribers := d.num_subscribers + 1 })
          db.workshop_collections)
        (fun x => rfl),
      find?_updateFirst (fun d => some d.id == c.id)
        (fun d => { d with num_subscribers := d.num_subscribers + 1 })
        db.workshop_collections (fun x => rfl)]
    cases db.workshop_collections.find? (fun d => some d.id == c.id) with
    | none => rfl
    | some d =>
      simp only [Option.map_some', Option.some.injEq]
      omega
  · intro h
    obtain ⟨hcols, hid⟩ := set_server_active_ok_parts db c guild_id now db₂ c₂ h
    have hu : (WorkshopCollection.unset_server_active db₂ c₂ guild_id now').workshop_collections =
        updateFirst (fun d => some d.id == c₂.id)
          (fun d => { d with num_guild_subscribers := d.num_guild_subscribers + (-1) })
          db₂.workshop_collections := rfl
    rw [MDB.collNumGuildSubscribers, MDB.collNumGuildSubscribers, hu, hid, hcols,
      find?_updateFirst (fun d => some d.id == c.id)
        (fun d => { d with num_guild_subscribers := d.num_guild_subscribers + (-1) })
        (updateFirst (fun d => some d.id == c.id)
          (fun d => { d with num_guild_subscribers := d.num_guild_subscribers + 1 })
          db.workshop_collections)
        (fun x => rfl),
      find?_updateFirst (fun d => some d.id == c.id)
        (fun d => { d with num_guild_subscribers := d.num_guild_subscribers + 1 })
        db.workshop_collections (fun x => rfl)]
    cases db.workshop_collections.find? (fun d => some d.id == c.id) with
    | none => rfl
    | some d =>
      simp only [Option.map_some', Option.some.injEq]
      omega

theorem subscribe_unsubscribe_roundtrip_witness :
    WorkshopCollection.subscribe dbW cW 7 99 = .ok (dbSubW, cLoadedW) ∧
    (WorkshopCollection.unsubscribe dbSubW cLoadedW 7 100).collNumSubscribers cW.id =
      dbW.collNumSubscribers cW.id ∧
    WorkshopCollection.set_server_active dbW cW 9 42 = .ok (dbSrvW, cLoadedW) ∧
    (WorkshopCollection.unset_server_active dbSrvW cLoadedW 9 43).collNumGuildSubscribers cW.id =
      dbW.collNumGuildSubscribers cW.id :=
  ⟨rfl,
   (subscribe_unsubscribe_roundtrip dbW cW 7 9 99 100 dbSubW dbSrvW cLoadedW cLoadedW).1 rfl,
   rfl,
   (subscribe_unsubscribe_roundtrip dbW cW 7 9 42 43 dbSubW dbSrvW cLoadedW cLoadedW).2 rfl⟩
